import Mathlib

/-!
Shallow embedding of `gio/gnetworkservice.c` (GNetworkService and its
GSocketAddressEnumerator) and proofs about its enumeration behavior.

Conventions of the embedding:
* A `GList *` that is `NULL` is the empty list; in particular the memoized
  `priv->targets` field uses `[]` both for "unresolved" and for an empty list,
  exactly as the C code cannot distinguish the two.
* External collaborators (GResolver, `g_hostname_to_ascii`,
  `g_network_address_parse_uri`, and the child `GSocketAddressEnumerator`
  obtained from a connectable) are modelled as oracles collected in `Env`.
* A child enumerator is its remaining stream of pull outcomes: pulling from an
  empty stream is the NULL-address/no-error "exhausted" answer, pulling an
  `addr` yields that address, pulling an `err` yields NULL plus that error.
* The suspending mode runs its callback chain to completion inside one step
  (the scheduling is single-threaded and cooperative); the outstanding
  `GSimpleAsyncResult` is modelled by the `result` flag, checked on entry by
  `g_return_if_fail`.
* Each step also returns a list of `Event`s recording the externally
  observable delegations it performed (resolver invocations, child-enumerator
  constructions, normalization/parse failures).
-/

/-- One SRV target as handed over by the resolver (`GSrvTarget`). -/
structure GSrvTarget where
  hostname : String
  port : Nat
  priority : Nat
  weight : Nat
deriving Repr, DecidableEq

/-- The `GError` values the embedding distinguishes. `invalidHostname` is the
`G_IO_ERROR_INVALID_ARGUMENT` error built at line 436 for a hostname that
`g_hostname_to_ascii` rejects; the remaining constructors stand for errors
produced by the collaborators. -/
inductive GErr where
  | cancelled
  | invalidArgument
  | invalidHostname (host : String)
  | resolverFailure (code : Nat)
  | parseFailure (code : Nat)
  | childFailure (code : Nat)
deriving Repr, DecidableEq

/-- The data from which the per-target child connectable is built.
`fromUri scheme host port` is the `GNetworkAddress` obtained by
`g_network_address_parse_uri (_g_uri_from_authority (scheme, host, port), port)`
in the blocking path (lines 442-450); `fromHost host port` is the
`g_network_address_new (hostname, port)` of the suspending path (line 577). -/
inductive ChildConn where
  | fromUri (scheme host : String) (port : Nat)
  | fromHost (host : String) (port : Nat)
deriving Repr, DecidableEq

/-- One outcome a child enumerator can produce when pulled. -/
inductive PullItem where
  | addr (a : Nat)
  | err (e : GErr)
deriving Repr, DecidableEq

/-- Result of one enumerator step, as seen through the (address, `GError`)
pair of out-parameters: an address, NULL with no error (end of sequence), or
NULL with an error. -/
inductive NextResult where
  | addr (a : Nat)
  | empty
  | error (e : GErr)
deriving Repr, DecidableEq

/-- Externally observable delegations performed during a step. -/
inductive Event where
  | resolverCall
  | childCreated (conn : ChildConn) (proxy : Bool)
  | normFail (host : String)
  | parseFail (scheme host : String) (port : Nat)
deriving Repr, DecidableEq

/-- The collaborators as oracles. `lookupService` is the (deterministic)
answer of `g_resolver_lookup_service` for this service triple;
`hostnameToAscii` is `g_hostname_to_ascii` (`none` = NULL); `parseUriFail`
says whether `g_network_address_parse_uri` fails on the URI built from the
given (scheme, ascii hostname, port), and with which error; `expand` gives
the pull-outcome stream of the child enumerator obtained by
`g_socket_connectable_proxy_enumerate`/`g_socket_connectable_enumerate`
(first argument: the `use_proxy` flag) on a connectable. -/
structure Env where
  lookupService : Except GErr (List GSrvTarget)
  hostnameToAscii : String → Option String
  parseUriFail : String → String → Nat → Option GErr
  expand : Bool → ChildConn → List PullItem

/-- `GNetworkServicePrivate` (lines 68-72): the identity triple, the scheme
override (`none` = NULL) and the memoized target list, where `[]` plays the
role of the NULL `GList` (unresolved). -/
structure GNetworkService where
  service : String
  protocol : String
  domain : String
  scheme : Option String
  targets : List GSrvTarget
deriving Repr, DecidableEq

/-- `g_network_service_new` (lines 252-262): builds the object with the three
construct-only string properties; no validation is performed. -/
def g_network_service_new (service protocol domain : String) : GNetworkService :=
  { service := service, protocol := protocol, domain := domain,
    scheme := none, targets := [] }

/-- `g_network_service_get_scheme` (lines 330-339): the override if set,
otherwise the service name. -/
def g_network_service_get_scheme (srv : GNetworkService) : String :=
  match srv.scheme with
  | some s => s
  | none => srv.service

/-- `g_network_service_set_scheme` (lines 351-362): frees the old override and
stores `g_strdup (scheme)` — which is NULL for a NULL argument — then emits
the "scheme" notification unconditionally. The second component is the list
of property notifications emitted. -/
def g_network_service_set_scheme (srv : GNetworkService) (scheme : Option String) :
    GNetworkService × List String :=
  ({ srv with scheme := scheme }, ["scheme"])

/-- Constructor contract as the documentation states it, for comparison with
`g_network_service_new`: construction fails with `InvalidArgument` when any of
service, protocol or domain is the empty string, and succeeds otherwise. -/
def constructPerSpec (service protocol domain : String) :
    Except GErr GNetworkService :=
  if service = "" ∨ protocol = "" ∨ domain = "" then .error .invalidArgument
  else .ok (g_network_service_new service protocol domain)

/-- `GNetworkServiceAddressEnumerator` (lines 368-382). `t` is the cursor into
the shared target list, kept as the remaining suffix; `addr_enum` is the
active child enumerator (its construction data and its remaining pull
outcomes); `error` is the first-error-wins slot; `result` models whether a
`GSimpleAsyncResult` for a suspending step is outstanding. -/
structure SrvEnum where
  srv : GNetworkService
  t : List GSrvTarget
  addr_enum : Option (ChildConn × List PullItem)
  use_proxy : Bool
  error : Option GErr
  result : Bool
deriving Repr, DecidableEq

/-- `g_network_service_connectable_enumerate` (lines 713-724): a fresh
enumerator over `srv`; all other fields start zeroed. -/
def g_network_service_connectable_enumerate (srv : GNetworkService) : SrvEnum :=
  { srv := srv, t := [], addr_enum := none, use_proxy := false,
    error := none, result := false }

/-- `g_network_service_connectable_proxy_enumerate` (lines 726-737): the same
enumerator with `use_proxy` set. -/
def g_network_service_connectable_proxy_enumerate (srv : GNetworkService) : SrvEnum :=
  { g_network_service_connectable_enumerate srv with use_proxy := true }

/-- First-write-wins update of the error slot: the recorded error is kept and
a new one is stored only into an empty slot
(`if (srv_enum->error == NULL) srv_enum->error = ...`). -/
def firstErr (slot : Option GErr) (e : GErr) : Option GErr :=
  match slot with
  | none => some e
  | some _ => slot

/-- Output of the blocking do/while loop: final cursor, final child
enumerator, final error slot, the address produced (if any), and the events
performed. -/
structure LoopOut where
  t : List GSrvTarget
  addr_enum : Option (ChildConn × List PullItem)
  error : Option GErr
  ret : Option Nat
  events : List Event
deriving Repr, DecidableEq

/-- The do/while loop of `g_network_service_address_enumerator_next`
(lines 418-487), entered with no active child enumerator. For the head
target the hostname is normalized (failure: record into the slot if empty and
continue), the URI built from (scheme, ascii hostname, port) is parsed
(failure: record into the slot if empty and continue), a child enumerator is
obtained from the resulting connectable, and one address is pulled from it: a
value exits the loop with that address; an error is recorded into the slot if
empty, the child is dropped, and the loop continues with the next target; a
NULL answer with no error exits the loop with the (exhausted) child still
active. The loop also exits when the cursor runs out. -/
def next_delegate_loop (env : Env) (proxy : Bool) (srv : GNetworkService) :
    Option GErr → List GSrvTarget → LoopOut
  | err, [] => { t := [], addr_enum := none, error := err, ret := none, events := [] }
  | err, target :: rest =>
    match env.hostnameToAscii target.hostname with
    | none =>
      let out := next_delegate_loop env proxy srv
        (firstErr err (.invalidHostname target.hostname)) rest
      { out with events := .normFail target.hostname :: out.events }
    | some ascii =>
      match env.parseUriFail (g_network_service_get_scheme srv) ascii target.port with
      | some e =>
        let out := next_delegate_loop env proxy srv (firstErr err e) rest
        { out with
          events := .parseFail (g_network_service_get_scheme srv) ascii target.port
            :: out.events }
      | none =>
        let conn := ChildConn.fromUri (g_network_service_get_scheme srv) ascii target.port
        match env.expand proxy conn with
        | .addr a :: rem =>
          { t := rest, addr_enum := some (conn, rem), error := err, ret := some a,
            events := [.childCreated conn proxy] }
        | .err e :: _ =>
          let out := next_delegate_loop env proxy srv (firstErr err e) rest
          { out with events := .childCreated conn proxy :: out.events }
        | [] =>
          { t := rest, addr_enum := some (conn, []), error := err, ret := none,
            events := [.childCreated conn proxy] }

/-- Lines 489-495: after the loop, if no address was produced and the slot
holds a recorded error, that error is propagated to the caller and the slot
is cleared; otherwise the address (or NULL with no error) is returned. -/
def finish_next (s : SrvEnum) (ret : Option Nat) (evs : List Event) :
    SrvEnum × NextResult × List Event :=
  match ret with
  | some a => (s, .addr a, evs)
  | none =>
    match s.error with
    | some e => ({ s with error := none }, .error e, evs)
    | none => (s, .empty, evs)

/-- The body of `g_network_service_address_enumerator_next` after target
resolution: if a child enumerator is already active, one address is pulled
from it first — a value is returned directly; NULL with no error ends the
step with the child still active; an error is recorded into the slot if
empty, the child is dropped and the loop takes over — otherwise the loop runs
from the current cursor. The error-surfacing epilogue closes the step. -/
def next_delegate (env : Env) (s : SrvEnum) : SrvEnum × NextResult × List Event :=
  match s.addr_enum with
  | some (conn, .addr a :: rem) =>
    ({ s with addr_enum := some (conn, rem) }, .addr a, [])
  | some (_, []) =>
    finish_next s none []
  | some (_, .err e :: _) =>
    let out := next_delegate_loop env s.use_proxy s.srv (firstErr s.error e) s.t
    finish_next { s with t := out.t, addr_enum := out.addr_enum, error := out.error }
      out.ret out.events
  | none =>
    let out := next_delegate_loop env s.use_proxy s.srv s.error s.t
    finish_next { s with t := out.t, addr_enum := out.addr_enum, error := out.error }
      out.ret out.events

/-- `g_network_service_address_enumerator_next` (lines 391-496). If the
shared target list is unresolved (NULL), the resolver is invoked: a failure
is returned directly (the list stays NULL), a NULL answer returns NULL with
no error (the list stays NULL), and a non-empty answer is memoized into the
identity and the cursor set to its head before the delegation loop runs. -/
def g_network_service_address_enumerator_next (env : Env) (s : SrvEnum) :
    SrvEnum × NextResult × List Event :=
  if s.srv.targets = [] then
    match env.lookupService with
    | .error e => (s, .error e, [.resolverCall])
    | .ok [] => (s, .empty, [.resolverCall])
    | .ok (t0 :: ts) =>
      let s1 := { s with srv := { s.srv with targets := t0 :: ts }, t := t0 :: ts }
      let (s2, r, evs) := next_delegate env s1
      (s2, r, .resolverCall :: evs)
  else
    next_delegate env s

/-- Output of the suspending expansion loop: final cursor, final child
enumerator, final error slot, the result the completion delivers (what
`next_finish` reports), and the events performed. -/
structure AsyncOut where
  t : List GSrvTarget
  addr_enum : Option (ChildConn × List PullItem)
  error : Option GErr
  delivered : NextResult
  events : List Event
deriving Repr, DecidableEq

/-- The `next_async_have_targets`/`next_async_have_address` recursion
(lines 567-650) entered with no active child enumerator. Each head target is
turned directly into `g_network_address_new (hostname, port)` — no hostname
normalization and no scheme — a child enumerator is obtained from it and
pulled once: a value completes with that address; NULL with no error
completes with NULL (the exhausted child stays active and the slot is kept);
an error is recorded into the slot if empty, the child is dropped and the
recursion continues with the next target. With the cursor exhausted and no
child, the completion delivers the recorded error (clearing the slot) if one
exists, else NULL. -/
def next_async_expand_loop (env : Env) (proxy : Bool) :
    Option GErr → List GSrvTarget → AsyncOut
  | err, [] =>
    match err with
    | some e =>
      { t := [], addr_enum := none, error := none, delivered := .error e, events := [] }
    | none =>
      { t := [], addr_enum := none, error := none, delivered := .empty, events := [] }
  | err, target :: rest =>
    let conn := ChildConn.fromHost target.hostname target.port
    match env.expand proxy conn with
    | .addr a :: rem =>
      { t := rest, addr_enum := some (conn, rem), error := err, delivered := .addr a,
        events := [.childCreated conn proxy] }
    | .err e :: _ =>
      let out := next_async_expand_loop env proxy (firstErr err e) rest
      { out with events := .childCreated conn proxy :: out.events }
    | [] =>
      { t := rest, addr_enum := some (conn, []), error := err, delivered := .empty,
        events := [.childCreated conn proxy] }

/-- `next_async_have_targets` (lines 567-610) when a child enumerator may
already be active: the active child is pulled once — a value completes with
that address; NULL with no error completes with NULL, keeping the exhausted
child and the slot; an error is recorded into the slot if empty, the child is
dropped, and the expansion loop continues. The `result` flag is cleared by
the completion. -/
def next_async_have_targets (env : Env) (s : SrvEnum) :
    SrvEnum × NextResult × List Event :=
  match s.addr_enum with
  | some (conn, .addr a :: rem) =>
    ({ s with addr_enum := some (conn, rem), result := false }, .addr a, [])
  | some (_, []) =>
    ({ s with result := false }, .empty, [])
  | some (_, .err e :: _) =>
    let out := next_async_expand_loop env s.use_proxy (firstErr s.error e) s.t
    ({ s with
        t := out.t
        addr_enum := out.addr_enum
        error := out.error
        result := false }, out.delivered, out.events)
  | none =>
    let out := next_async_expand_loop env s.use_proxy s.error s.t
    ({ s with
        t := out.t
        addr_enum := out.addr_enum
        error := out.error
        result := false }, out.delivered, out.events)

/-- Outcome of one suspending step: either the completion's delivered result
(as reported by `g_network_service_address_enumerator_next_finish`), or the
entry `g_return_if_fail (srv_enum->result == NULL)` tripping with no work
scheduled. -/
inductive AsyncOutcome where
  | delivered (r : NextResult)
  | failedPrecondition
deriving Repr, DecidableEq

/-- `g_network_service_address_enumerator_next_async` (lines 506-537) with its
callback chain run to completion and composed with `next_finish`
(lines 652-665). The outstanding-result precondition is checked at entry; then
a `GSimpleAsyncResult` is created, the resolver is invoked if the shared list
is NULL (a failure completes with that error; the answer — possibly NULL — is
stored into the identity and the cursor reset), and `next_async_have_targets`
drives the rest. -/
def g_network_service_address_enumerator_next_async (env : Env) (s : SrvEnum) :
    SrvEnum × AsyncOutcome × List Event :=
  if s.result then (s, .failedPrecondition, [])
  else
    let s1 : SrvEnum := { s with result := true }
    if s1.srv.targets = [] then
      match env.lookupService with
      | .error e => ({ s1 with result := false }, .delivered (.error e), [.resolverCall])
      | .ok ts =>
        let s2 := { s1 with srv := { s1.srv with targets := ts }, t := ts }
        let (s3, r, evs) := next_async_have_targets env s2
        (s3, .delivered r, .resolverCall :: evs)
    else
      let (s3, r, evs) := next_async_have_targets env s1
      (s3, .delivered r, evs)

/-! Concrete fixtures used by witnesses and counterexamples. -/

/-- SRV target with hostname "a". -/
def tA : GSrvTarget := { hostname := "a", port := 389, priority := 0, weight := 5 }

/-- SRV target with hostname "b". -/
def tB : GSrvTarget := { hostname := "b", port := 389, priority := 10, weight := 0 }

/-- SRV target with hostname "c". -/
def tC : GSrvTarget := { hostname := "c", port := 443, priority := 20, weight := 0 }

/-- SRV target whose hostname "bad" the normalizer rejects. -/
def tBad : GSrvTarget := { hostname := "bad", port := 389, priority := 0, weight := 1 }

/-- The (ldap, tcp, example.com) identity. -/
def srvLdap : GNetworkService := g_network_service_new "ldap" "tcp" "example.com"

/-- A fresh direct-mode enumerator over `srvLdap`. -/
def enumLdap : SrvEnum := g_network_service_connectable_enumerate srvLdap

/-- Normalizer that rejects exactly the hostname "bad". -/
def normAll : String → Option String := fun h => if h = "bad" then none else some h

/-- Resolver answers an empty target list; every child is empty. -/
def envEmptyAnswer : Env :=
  { lookupService := .ok [], hostnameToAscii := normAll,
    parseUriFail := fun _ _ _ => none, expand := fun _ _ => [] }

/-- Resolver answers [tA, tB]; every child enumerator is exhausted at once. -/
def envExhaust : Env :=
  { lookupService := .ok [tA, tB], hostnameToAscii := normAll,
    parseUriFail := fun _ _ _ => none, expand := fun _ _ => [] }

/-- Resolver answers [tBad, tA, tB]; the child for "a" yields one address,
all other children are empty. -/
def envSlot : Env :=
  { lookupService := .ok [tBad, tA, tB], hostnameToAscii := normAll,
    parseUriFail := fun _ _ _ => none,
    expand := fun _ conn =>
      match conn with
      | .fromUri _ "a" _ => [.addr 1]
      | _ => [] }

/-- Resolver answers [tA, tB, tC]; the child for "a" is cancelled on its
first pull in either construction, the child for "b" yields one address, and
any other child yields one address. -/
def envCancel : Env :=
  { lookupService := .ok [tA, tB, tC], hostnameToAscii := normAll,
    parseUriFail := fun _ _ _ => none,
    expand := fun _ conn =>
      match conn with
      | .fromUri _ "a" _ => [.err .cancelled]
      | .fromHost "a" _ => [.err .cancelled]
      | .fromUri _ "b" _ => [.addr 5]
      | _ => [.addr 7] }

/-- Resolver answers [tBad]; the child built from the raw hostname "bad"
yields one address, every other child is empty. -/
def envModes : Env :=
  { lookupService := .ok [tBad], hostnameToAscii := normAll,
    parseUriFail := fun _ _ _ => none,
    expand := fun _ conn =>
      match conn with
      | .fromHost "bad" _ => [.addr 9]
      | _ => [] }

/-- Resolver answers [tA, tB]; URI parsing fails for the hostname "a", every
child yields one address. -/
def envParse : Env :=
  { lookupService := .ok [tA, tB], hostnameToAscii := normAll,
    parseUriFail := fun _ h _ => if h = "a" then some (.parseFailure 3) else none,
    expand := fun _ _ => [.addr 2] }

/-- Pending-step state used by the C7 witness. -/
def sPending : SrvEnum := { enumLdap with result := true }

/-- Enumerator over an already-resolved identity, used by witnesses. -/
def sResolved : SrvEnum :=
  { enumLdap with srv := { srvLdap with targets := [tA] }, t := [tA] }

/-- Enumerator holding an exhausted child, over a resolved identity. -/
def sExh : SrvEnum :=
  { enumLdap with
      srv := { srvLdap with targets := [tA] }
      t := [tB]
      addr_enum := some (ChildConn.fromUri "ldap" "a" 389, []) }

/-- Enumerator whose active child errors with Cancelled on its next pull. -/
def sErrC : SrvEnum :=
  { enumLdap with
      srv := { srvLdap with targets := [tA] }
      t := [tB]
      addr_enum := some (ChildConn.fromUri "ldap" "a" 389, [.err .cancelled]) }

/-- Enumerator over a resolved identity whose slot already records an error. -/
def sSlot : SrvEnum :=
  { enumLdap with srv := { srvLdap with targets := [tA] }, t := [tA], error := some .cancelled }

/-- State after the first blocking step of the C6 run. -/
def c6s1 : SrvEnum := (g_network_service_address_enumerator_next envCancel enumLdap).1

/-- State after the second blocking step of the C6 run. -/
def c6s2 : SrvEnum := (g_network_service_address_enumerator_next envCancel c6s1).1

theorem finish_next_srv (s : SrvEnum) (ret : Option Nat) (evs : List Event) :
    (finish_next s ret evs).1.srv = s.srv := by
  unfold finish_next
  cases ret with
  | some a => rfl
  | none => cases s.error <;> rfl

theorem finish_next_events (s : SrvEnum) (ret : Option Nat) (evs : List Event) :
    (finish_next s ret evs).2.2 = evs := by
  unfold finish_next
  cases ret with
  | some a => rfl
  | none => cases s.error <;> rfl

theorem next_delegate_loop_no_resolver (env : Env) (p : Bool) (srv : GNetworkService) :
    ∀ err ts, Event.resolverCall ∉ (next_delegate_loop env p srv err ts).events := by
  intro err ts
  induction ts generalizing err with
  | nil => simp [next_delegate_loop]
  | cons target rest ih =>
    simp only [next_delegate_loop]
    split
    · simpa using ih _
    · split
      · simpa using ih _
      · split
        · simp
        · simpa using ih _
        · simp

theorem next_async_expand_loop_no_resolver (env : Env) (p : Bool) :
    ∀ err ts, Event.resolverCall ∉ (next_async_expand_loop env p err ts).events := by
  intro err ts
  induction ts generalizing err with
  | nil => cases err <;> simp [next_async_expand_loop]
  | cons target rest ih =>
    simp only [next_async_expand_loop]
    split
    · simp
    · simpa using ih _
    · simp

theorem next_delegate_loop_keeps_slot (env : Env) (p : Bool) (srv : GNetworkService)
    (e : GErr) : ∀ ts, (next_delegate_loop env p srv (some e) ts).error = some e := by
  intro ts
  induction ts with
  | nil => simp [next_delegate_loop]
  | cons target rest ih =>
    simp only [next_delegate_loop]
    split
    · simpa [firstErr] using ih
    · split
      · simpa [firstErr] using ih
      · split
        · simp
        · simpa [firstErr] using ih
        · simp

theorem next_delegate_srv (env : Env) (s : SrvEnum) :
    (next_delegate env s).1.srv = s.srv := by
  unfold next_delegate
  split
  · rfl
  · rw [finish_next_srv]
  · rw [finish_next_srv]
  · rw [finish_next_srv]

theorem next_delegate_no_resolver (env : Env) (s : SrvEnum) :
    Event.resolverCall ∉ (next_delegate env s).2.2 := by
  unfold next_delegate
  split
  · simp
  · rw [finish_next_events]; simp
  · rw [finish_next_events]; exact next_delegate_loop_no_resolver env s.use_proxy s.srv _ _
  · rw [finish_next_events]; exact next_delegate_loop_no_resolver env s.use_proxy s.srv _ _

theorem next_async_have_targets_srv (env : Env) (s : SrvEnum) :
    (next_async_have_targets env s).1.srv = s.srv := by
  unfold next_async_have_targets
  split <;> rfl

theorem next_async_have_targets_no_resolver (env : Env) (s : SrvEnum) :
    Event.resolverCall ∉ (next_async_have_targets env s).2.2 := by
  unfold next_async_have_targets
  split
  · simp
  · simp
  · exact next_async_expand_loop_no_resolver env s.use_proxy _ _
  · exact next_async_expand_loop_no_resolver env s.use_proxy _ _

/-- C10: setting the scheme to NULL clears the override so `get_scheme` falls
back to the service name; setting it to a non-NULL value makes `get_scheme`
return that value; and every `set_scheme` call emits the "scheme"
notification. -/
theorem C10_scheme_override (srv : GNetworkService) (s : String) (v : Option String) :
    g_network_service_get_scheme (g_network_service_set_scheme srv none).1 = srv.service
    ∧ g_network_service_get_scheme (g_network_service_set_scheme srv (some s)).1 = s
    ∧ (g_network_service_set_scheme srv v).2 = ["scheme"] :=
  ⟨rfl, rfl, rfl⟩

/-- Witness for C10 at a concrete identity. -/
theorem C10_scheme_override_witness :
    g_network_service_get_scheme (g_network_service_set_scheme srvLdap none).1 = srvLdap.service
    ∧ g_network_service_get_scheme (g_network_service_set_scheme srvLdap (some "ldaps")).1 = "ldaps"
    ∧ (g_network_service_set_scheme srvLdap (some "ldaps")).2 = ["scheme"] :=
  C10_scheme_override srvLdap "ldaps" (some "ldaps")

/-- C8 counterexample: `g_network_service_new` performs no validation — with
an empty service name it still produces an object (storing the empty string),
whereas the claimed contract demands an `InvalidArgument` failure. -/
theorem C8_counterexample :
    g_network_service_new "" "tcp" "example.com" =
      { service := "", protocol := "tcp", domain := "example.com",
        scheme := none, targets := [] }
    ∧ constructPerSpec "" "tcp" "example.com" = .error .invalidArgument := by
  refine ⟨rfl, ?_⟩
  simp [constructPerSpec]

/-- C8 (amended): construction never fails — `g_network_service_new` stores
the three strings verbatim, empty or not, with no validation. -/
theorem C8_no_validation (service protocol domain : String) :
    g_network_service_new service protocol domain =
      { service := service, protocol := protocol, domain := domain,
        scheme := none, targets := [] } := rfl

/-- Witness for the amended C8 at a concrete input. -/
theorem C8_no_validation_witness :
    g_network_service_new "ldap" "tcp" "example.com" =
      { service := "ldap", protocol := "tcp", domain := "example.com",
        scheme := none, targets := [] } :=
  C8_no_validation "ldap" "tcp" "example.com"

/-- C7: a suspending step issued while a previous suspending step on the same
cursor is outstanding is rejected at entry by the
`g_return_if_fail (srv_enum->result == NULL)` precondition check: the state
is unchanged, no result is delivered, and no work (no resolver call, no child
pull) is scheduled. -/
theorem C7_pending_step_rejected (env : Env) (s : SrvEnum) (h : s.result = true) :
    g_network_service_address_enumerator_next_async env s =
      (s, .failedPrecondition, []) := by
  simp [g_network_service_address_enumerator_next_async, h]

/-- Witness for C7: a concrete pending cursor is rejected unchanged. -/
theorem C7_pending_step_rejected_witness :
    sPending.result = true
    ∧ g_network_service_address_enumerator_next_async envEmptyAnswer sPending =
        (sPending, .failedPrecondition, []) :=
  ⟨rfl, C7_pending_step_rejected envEmptyAnswer sPending rfl⟩

/-- C5: when the shared target list is unresolved and the resolver answers
successfully with zero targets, both the blocking and the suspending step
report end-of-sequence (NULL with no error) on that step. -/
theorem C5_zero_targets_empty (env : Env) (s : SrvEnum)
    (hres : s.srv.targets = []) (hok : env.lookupService = .ok [])
    (hchild : s.addr_enum = none) (hslot : s.error = none) (hpend : s.result = false) :
    (g_network_service_address_enumerator_next env s).2.1 = .empty
    ∧ (g_network_service_address_enumerator_next_async env s).2.1 = .delivered .empty := by
  constructor
  · simp [g_network_service_address_enumerator_next, hres, hok]
  · simp [g_network_service_address_enumerator_next_async, hpend, hres, hok,
      next_async_have_targets, hchild, hslot, next_async_expand_loop]

/-- Witness for C5: a fresh enumerator against a resolver answering zero
targets yields Empty in both modes. -/
theorem C5_zero_targets_empty_witness :
    (enumLdap.srv.targets = [] ∧ envEmptyAnswer.lookupService = .ok []
      ∧ enumLdap.addr_enum = none ∧ enumLdap.error = none ∧ enumLdap.result = false)
    ∧ ((g_network_service_address_enumerator_next envEmptyAnswer enumLdap).2.1 = .empty
       ∧ (g_network_service_address_enumerator_next_async envEmptyAnswer enumLdap).2.1 =
           .delivered .empty) :=
  ⟨⟨rfl, rfl, rfl, rfl, rfl⟩,
   C5_zero_targets_empty envEmptyAnswer enumLdap rfl rfl rfl rfl rfl⟩

/-- C3 counterexample: two failures of the claim at concrete inputs. First, a
resolution that completes successfully with zero targets is not memoized: the
first blocking step reports Empty after a resolver call, and the very next
step invokes the resolver again. Second, after a resolution that stores a
non-empty list, a second enumerator built from the same identity does not
observe that target list: its cursor starts at NULL, so its first step
reports Empty immediately (state unchanged, no events) without walking the
two stored targets. -/
theorem C3_counterexample :
    (g_network_service_address_enumerator_next envEmptyAnswer enumLdap).2.1 = .empty
    ∧ (g_network_service_address_enumerator_next envEmptyAnswer enumLdap).2.2 =
        [.resolverCall]
    ∧ (g_network_service_address_enumerator_next envEmptyAnswer
        (g_network_service_address_enumerator_next envEmptyAnswer enumLdap).1).2.2 =
        [.resolverCall]
    ∧ (g_network_service_address_enumerator_next envExhaust enumLdap).1.srv.targets =
        [tA, tB]
    ∧ (g_network_service_address_enumerator_next envExhaust
        (g_network_service_connectable_enumerate
          (g_network_service_address_enumerator_next envExhaust enumLdap).1.srv)) =
      (g_network_service_connectable_enumerate
        (g_network_service_address_enumerator_next envExhaust enumLdap).1.srv,
       .empty, []) := by decide

/-- C3 (amended): the target list is memoized only when resolution succeeds
with at least one target (a successful empty answer is a NULL list,
indistinguishable from the unresolved state, and is not memoized). Once the
identity holds a non-empty memoized list, no later step of any enumerator in
either mode invokes the resolver again and the stored list is never modified;
the list is shared, but an enumerator built from the identity after
resolution does not walk it — its cursor starts at NULL, so each of its steps
returns Empty with the state unchanged and no delegation performed, in both
modes. -/
theorem C3_memoized_after_nonempty (env : Env) (s : SrvEnum)
    (srv2 : GNetworkService) (h : s.srv.targets ≠ []) (h2 : srv2.targets ≠ []) :
    ((Event.resolverCall ∉ (g_network_service_address_enumerator_next env s).2.2
      ∧ (g_network_service_address_enumerator_next env s).1.srv.targets = s.srv.targets)
     ∧ (Event.resolverCall ∉ (g_network_service_address_enumerator_next_async env s).2.2
      ∧ (g_network_service_address_enumerator_next_async env s).1.srv.targets
          = s.srv.targets))
    ∧ (g_network_service_address_enumerator_next env
         (g_network_service_connectable_enumerate srv2) =
       (g_network_service_connectable_enumerate srv2, .empty, [])
       ∧ g_network_service_address_enumerator_next_async env
           (g_network_service_connectable_enumerate srv2) =
         (g_network_service_connectable_enumerate srv2, .delivered .empty, [])) := by
  have hb : g_network_service_address_enumerator_next env s = next_delegate env s := by
    simp [g_network_service_address_enumerator_next, h]
  refine ⟨⟨⟨?_, ?_⟩, ?_⟩, ?_, ?_⟩
  · rw [hb]; exact next_delegate_no_resolver env s
  · rw [hb, next_delegate_srv]
  · by_cases hr : s.result
    · simp [g_network_service_address_enumerator_next_async, hr]
    · have ha : g_network_service_address_enumerator_next_async env s =
          (let r := next_async_have_targets env { s with result := true }
           (r.1, .delivered r.2.1, r.2.2)) := by
        simp [g_network_service_address_enumerator_next_async, hr, h]
      rw [ha]
      refine ⟨next_async_have_targets_no_resolver env _, ?_⟩
      have := next_async_have_targets_srv env { s with result := true }
      simp only [this]
  · simp [g_network_service_address_enumerator_next, g_network_service_connectable_enumerate,
      h2, next_delegate, next_delegate_loop, finish_next]
  · simp [g_network_service_address_enumerator_next_async,
      g_network_service_connectable_enumerate, h2, next_async_have_targets,
      next_async_expand_loop]

/-- Witness for the amended C3: a step over an already-resolved identity
performs no resolver call in either mode and leaves the stored list intact,
and a fresh enumerator over that identity is inert in both modes. -/
theorem C3_memoized_after_nonempty_witness :
    (sResolved.srv.targets ≠ [] ∧ ({ srvLdap with targets := [tA] } : GNetworkService).targets ≠ [])
    ∧ (((Event.resolverCall ∉
          (g_network_service_address_enumerator_next envExhaust sResolved).2.2
        ∧ (g_network_service_address_enumerator_next envExhaust sResolved).1.srv.targets
            = sResolved.srv.targets)
       ∧ (Event.resolverCall ∉
            (g_network_service_address_enumerator_next_async envExhaust sResolved).2.2
        ∧ (g_network_service_address_enumerator_next_async envExhaust sResolved).1.srv.targets
            = sResolved.srv.targets))
      ∧ (g_network_service_address_enumerator_next envExhaust
           (g_network_service_connectable_enumerate { srvLdap with targets := [tA] }) =
         (g_network_service_connectable_enumerate { srvLdap with targets := [tA] },
          .empty, [])
         ∧ g_network_service_address_enumerator_next_async envExhaust
             (g_network_service_connectable_enumerate { srvLdap with targets := [tA] }) =
           (g_network_service_connectable_enumerate { srvLdap with targets := [tA] },
            .delivered .empty, []))) :=
  ⟨⟨by decide, by decide⟩,
   C3_memoized_after_nonempty envExhaust sResolved { srvLdap with targets := [tA] }
     (by decide) (by decide)⟩

/-- C9: in the blocking loop, a target whose URI fails to parse into a network
address is skipped: the parse error is recorded into the slot only if it is
empty (first error wins), the cursor advances, and the step continues with
the remaining targets exactly as if it had started there with the updated
slot — so the target contributes no child enumerator and no address. -/
theorem C9_parse_failure_skips_target (env : Env) (p : Bool) (srv : GNetworkService)
    (err : Option GErr) (target : GSrvTarget) (rest : List GSrvTarget)
    (ascii : String) (e : GErr)
    (hn : env.hostnameToAscii target.hostname = some ascii)
    (hp : env.parseUriFail (g_network_service_get_scheme srv) ascii target.port = some e) :
    next_delegate_loop env p srv err (target :: rest) =
      { next_delegate_loop env p srv (firstErr err e) rest with
        events := Event.parseFail (g_network_service_get_scheme srv) ascii target.port ::
          (next_delegate_loop env p srv (firstErr err e) rest).events } := by
  simp only [next_delegate_loop, hn, hp]

/-- Witness for C9 at a concrete environment in which URI parsing fails for
the first target. -/
theorem C9_parse_failure_skips_target_witness :
    (envParse.hostnameToAscii tA.hostname = some "a"
     ∧ envParse.parseUriFail (g_network_service_get_scheme srvLdap) "a" tA.port =
         some (.parseFailure 3))
    ∧ next_delegate_loop envParse false srvLdap none (tA :: [tB]) =
        { next_delegate_loop envParse false srvLdap (firstErr none (.parseFailure 3)) [tB] with
          events := Event.parseFail (g_network_service_get_scheme srvLdap) "a" tA.port ::
            (next_delegate_loop envParse false srvLdap
              (firstErr none (.parseFailure 3)) [tB]).events } :=
  ⟨⟨by decide, by decide⟩,
   C9_parse_failure_skips_target envParse false srvLdap none tA [tB] "a"
     (.parseFailure 3) (by decide) (by decide)⟩

/-- C2 counterexample: with two resolvable targets whose children are all
immediately exhausted, the step in which the first child terminates by
exhaustion keeps that child active, leaves the cursor at the second target,
creates no child for the second target, and every further step returns the
same Empty answer with the same state — the child is not discarded and the
walk does not continue. -/
theorem C2_counterexample :
    (g_network_service_address_enumerator_next envExhaust enumLdap).2.1 = .empty
    ∧ (g_network_service_address_enumerator_next envExhaust enumLdap).1.t = [tB]
    ∧ (g_network_service_address_enumerator_next envExhaust enumLdap).1.addr_enum =
        some (ChildConn.fromUri "ldap" "a" 389, [])
    ∧ (∀ px, Event.childCreated (ChildConn.fromUri "ldap" "b" 389) px ∉
        (g_network_service_address_enumerator_next envExhaust enumLdap).2.2)
    ∧ (g_network_service_address_enumerator_next envExhaust
        (g_network_service_address_enumerator_next envExhaust enumLdap).1).1 =
      (g_network_service_address_enumerator_next envExhaust enumLdap).1 := by decide

/-- C2 (amended): the active child enumerator is discarded and the cursor
advanced only when the child reports an error — the error being recorded into
the slot only if it is empty, after which the walk continues from the current
cursor; when the child is exhausted (no value and no error) it is kept
active, the cursor does not move, and the step produces no address, in both
the blocking and the suspending mode. -/
theorem C2_child_termination (env : Env) (sx se : SrvEnum) (cx ce : ChildConn)
    (e : GErr) (rem : List PullItem)
    (htx : sx.srv.targets ≠ []) (hx : sx.addr_enum = some (cx, []))
    (hpx : sx.result = false)
    (hte : se.srv.targets ≠ []) (he : se.addr_enum = some (ce, .err e :: rem))
    (hpe : se.result = false) :
    ((g_network_service_address_enumerator_next env sx).1.addr_enum = some (cx, [])
     ∧ (g_network_service_address_enumerator_next env sx).1.t = sx.t
     ∧ (∀ a, (g_network_service_address_enumerator_next env sx).2.1 ≠ .addr a))
    ∧ (g_network_service_address_enumerator_next env se =
        finish_next { se with
            t := (next_delegate_loop env se.use_proxy se.srv (firstErr se.error e) se.t).t
            addr_enum :=
              (next_delegate_loop env se.use_proxy se.srv (firstErr se.error e) se.t).addr_enum
            error :=
              (next_delegate_loop env se.use_proxy se.srv (firstErr se.error e) se.t).error }
          (next_delegate_loop env se.use_proxy se.srv (firstErr se.error e) se.t).ret
          (next_delegate_loop env se.use_proxy se.srv (firstErr se.error e) se.t).events)
    ∧ ((g_network_service_address_enumerator_next_async env sx).1.addr_enum = some (cx, [])
       ∧ (g_network_service_address_enumerator_next_async env sx).1.t = sx.t
       ∧ (g_network_service_address_enumerator_next_async env sx).2.1 =
           .delivered .empty)
    ∧ ((g_network_service_address_enumerator_next_async env se).2.1 =
         .delivered (next_async_expand_loop env se.use_proxy (firstErr se.error e) se.t).delivered
       ∧ (g_network_service_address_enumerator_next_async env se).1.addr_enum =
         (next_async_expand_loop env se.use_proxy (firstErr se.error e) se.t).addr_enum) := by
  have hbx : g_network_service_address_enumerator_next env sx = next_delegate env sx := by
    simp [g_network_service_address_enumerator_next, htx]
  have hbe : g_network_service_address_enumerator_next env se = next_delegate env se := by
    simp [g_network_service_address_enumerator_next, hte]
  have hdx : next_delegate env sx = finish_next sx none [] := by
    unfold next_delegate; rw [hx]
  have hde : next_delegate env se =
      finish_next { se with
          t := (next_delegate_loop env se.use_proxy se.srv (firstErr se.error e) se.t).t
          addr_enum :=
            (next_delegate_loop env se.use_proxy se.srv (firstErr se.error e) se.t).addr_enum
          error :=
            (next_delegate_loop env se.use_proxy se.srv (firstErr se.error e) se.t).error }
        (next_delegate_loop env se.use_proxy se.srv (firstErr se.error e) se.t).ret
        (next_delegate_loop env se.use_proxy se.srv (firstErr se.error e) se.t).events := by
    unfold next_delegate; rw [he]
  refine ⟨?_, ?_, ?_, ?_⟩
  · rw [hbx, hdx]
    unfold finish_next
    cases hsl : sx.error <;> simp [hx]
  · rw [hbe, hde]
  · have hax : g_network_service_address_enumerator_next_async env sx =
        (let r := next_async_have_targets env { sx with result := true }
         (r.1, .delivered r.2.1, r.2.2)) := by
      simp [g_network_service_address_enumerator_next_async, hpx, htx]
    rw [hax]
    have h2 : next_async_have_targets env { sx with result := true } =
        ({ sx with result := false }, .empty, []) := by
      unfold next_async_have_targets
      simp only [hx]
    simp only [h2]
    simp [hx]
  · have hae : g_network_service_address_enumerator_next_async env se =
        (let r := next_async_have_targets env { se with result := true }
         (r.1, .delivered r.2.1, r.2.2)) := by
      simp [g_network_service_address_enumerator_next_async, hpe, hte]
    rw [hae]
    have : next_async_have_targets env { se with result := true } =
        (let out := next_async_expand_loop env se.use_proxy (firstErr se.error e) se.t
         ({ se with
              t := out.t
              addr_enum := out.addr_enum
              error := out.error
              result := false }, out.delivered, out.events)) := by
      unfold next_async_have_targets
      simp only [he]
    simp [this]

theorem finish_next_dichotomy (s : SrvEnum) (e : GErr) (ret : Option Nat)
    (evs : List Event) (h : s.error = some e) :
    (∀ a, (finish_next s ret evs).2.1 = .addr a → (finish_next s ret evs).1.error = some e)
    ∧ ((∀ a, (finish_next s ret evs).2.1 ≠ .addr a) →
       (finish_next s ret evs).2.1 = .error e ∧ (finish_next s ret evs).1.error = none) := by
  unfold finish_next
  cases ret with
  | some a =>
    exact ⟨fun a' _ => h, fun hno => absurd rfl (hno a)⟩
  | none =>
    simp only [h]
    refine ⟨fun a ha => ?_, fun _ => ⟨trivial, trivial⟩⟩
    cases ha

theorem next_delegate_dichotomy (env : Env) (s : SrvEnum) (e : GErr)
    (hslot : s.error = some e) :
    (∀ a, (next_delegate env s).2.1 = .addr a → (next_delegate env s).1.error = some e)
    ∧ ((∀ a, (next_delegate env s).2.1 ≠ .addr a) →
       (next_delegate env s).2.1 = .error e ∧ (next_delegate env s).1.error = none) := by
  unfold next_delegate
  split
  · exact ⟨fun a' _ => hslot, fun hno => absurd rfl (hno _)⟩
  · exact finish_next_dichotomy s e none [] hslot
  · rename_i conn e' rem heq
    have hfe : firstErr s.error e' = some e := by rw [hslot]; rfl
    have hkeep : (next_delegate_loop env s.use_proxy s.srv (firstErr s.error e') s.t).error
        = some e := by
      rw [hfe]; exact next_delegate_loop_keeps_slot env s.use_proxy s.srv e s.t
    exact finish_next_dichotomy _ e _ _ (by simpa using hkeep)
  · have hkeep : (next_delegate_loop env s.use_proxy s.srv s.error s.t).error = some e := by
      rw [hslot]; exact next_delegate_loop_keeps_slot env s.use_proxy s.srv e s.t
    exact finish_next_dichotomy _ e _ _ (by simpa using hkeep)

/-- C4 counterexample: with targets [tBad, tA, tB] where "bad" fails to
normalize and "a" yields one address, the first step yields that address with
the normalization error recorded; the second step — the walk NOT being
finished, the cursor still holding tB — surfaces the recorded error and
clears the slot. The claim that the error is surfaced only with the walk
finished is false. -/
theorem C4_counterexample :
    (g_network_service_address_enumerator_next envSlot enumLdap).2.1 = .addr 1
    ∧ (g_network_service_address_enumerator_next envSlot enumLdap).1.error =
        some (.invalidHostname "bad")
    ∧ (g_network_service_address_enumerator_next envSlot
        (g_network_service_address_enumerator_next envSlot enumLdap).1).2.1 =
        .error (.invalidHostname "bad")
    ∧ (g_network_service_address_enumerator_next envSlot
        (g_network_service_address_enumerator_next envSlot enumLdap).1).1.t = [tB]
    ∧ (g_network_service_address_enumerator_next envSlot
        (g_network_service_address_enumerator_next envSlot enumLdap).1).1.error =
        none := by decide

theorem next_async_expand_loop_slot (env : Env) (p : Bool) (e : GErr) :
    ∀ ts : List GSrvTarget,
      ((next_async_expand_loop env p (some e) ts).delivered = .error e
        ∧ (next_async_expand_loop env p (some e) ts).error = none
        ∧ (next_async_expand_loop env p (some e) ts).addr_enum = none
        ∧ (next_async_expand_loop env p (some e) ts).t = [])
      ∨ ((next_async_expand_loop env p (some e) ts).error = some e
        ∧ ∀ e', (next_async_expand_loop env p (some e) ts).delivered ≠ .error e') := by
  intro ts
  induction ts with
  | nil => left; simp [next_async_expand_loop]
  | cons target rest ih =>
    simp only [next_async_expand_loop]
    split
    · right; simp
    · simpa [firstErr] using ih
    · right; simp

theorem next_async_have_targets_slot (env : Env) (s : SrvEnum) (e : GErr)
    (hslot : s.error = some e) :
    (∀ e', (next_async_have_targets env s).2.1 = .error e' →
       e' = e ∧ (next_async_have_targets env s).1.error = none
       ∧ (next_async_have_targets env s).1.addr_enum = none
       ∧ (next_async_have_targets env s).1.t = [])
    ∧ ((∀ e', (next_async_have_targets env s).2.1 ≠ .error e') →
       (next_async_have_targets env s).1.error = some e) := by
  unfold next_async_have_targets
  split
  · refine ⟨fun e' h => ?_, fun _ => hslot⟩
    simp at h
  · refine ⟨fun e' h => ?_, fun _ => hslot⟩
    simp at h
  · dsimp only
    rw [hslot]
    simp only [firstErr]
    rcases next_async_expand_loop_slot env s.use_proxy e s.t with ⟨h1, h2, h3, h4⟩ | ⟨h1, h2⟩
    · refine ⟨fun e' h => ?_, fun hno => ?_⟩
      · rw [h1] at h
        injection h with hee
        subst hee
        exact ⟨rfl, h2, h3, h4⟩
      · exact absurd h1 (hno e)
    · exact ⟨fun e' h => absurd h (h2 e'), fun _ => h1⟩
  · dsimp only
    rw [hslot]
    rcases next_async_expand_loop_slot env s.use_proxy e s.t with ⟨h1, h2, h3, h4⟩ | ⟨h1, h2⟩
    · refine ⟨fun e' h => ?_, fun hno => ?_⟩
      · rw [h1] at h
        injection h with hee
        subst hee
        exact ⟨rfl, h2, h3, h4⟩
      · exact absurd h1 (hno e)
    · exact ⟨fun e' h => absurd h (h2 e'), fun _ => h1⟩

/-- C4 (amended): the error slot is first-write-wins in both modes — a later
per-target error never replaces the recorded one. In the suspending mode the
recorded error is surfaced exactly as originally claimed: only at a
completion that delivers no address with no active child and the cursor
exhausted, exactly once, after which the slot is cleared; any other
suspending completion leaves the recorded error in place. In the blocking
mode, however, the recorded error is preserved across any step that produces
an address and is surfaced — it, and not any later error — on any step that
produces no address, whether or not targets remain, after which the slot is
cleared. -/
theorem C4_first_error_surfaced_once (env : Env) (s : SrvEnum) (e : GErr)
    (hslot : s.error = some e) (htg : s.srv.targets ≠ []) (hres : s.result = false) :
    (∀ a, (g_network_service_address_enumerator_next env s).2.1 = .addr a →
       (g_network_service_address_enumerator_next env s).1.error = some e)
    ∧ ((∀ a, (g_network_service_address_enumerator_next env s).2.1 ≠ .addr a) →
       (g_network_service_address_enumerator_next env s).2.1 = .error e
       ∧ (g_network_service_address_enumerator_next env s).1.error = none)
    ∧ (∀ e', (g_network_service_address_enumerator_next_async env s).2.1 =
         .delivered (.error e') →
       e' = e ∧ (g_network_service_address_enumerator_next_async env s).1.error = none
       ∧ (g_network_service_address_enumerator_next_async env s).1.addr_enum = none
       ∧ (g_network_service_address_enumerator_next_async env s).1.t = [])
    ∧ ((∀ e', (g_network_service_address_enumerator_next_async env s).2.1 ≠
         .delivered (.error e')) →
       (g_network_service_address_enumerator_next_async env s).1.error = some e) := by
  have hb : g_network_service_address_enumerator_next env s = next_delegate env s := by
    simp [g_network_service_address_enumerator_next, htg]
  have hax : g_network_service_address_enumerator_next_async env s =
      (let r := next_async_have_targets env { s with result := true }
       (r.1, .delivered r.2.1, r.2.2)) := by
    simp [g_network_service_address_enumerator_next_async, hres, htg]
  obtain ⟨hb1, hb2⟩ := next_delegate_dichotomy env s e hslot
  have hs1 : ({ s with result := true } : SrvEnum).error = some e := hslot
  obtain ⟨ha1, ha2⟩ := next_async_have_targets_slot env { s with result := true } e hs1
  refine ⟨?_, ?_, ?_, ?_⟩
  · rw [hb]; exact hb1
  · rw [hb]; exact hb2
  · rw [hax]
    dsimp only
    intro e' h
    injection h with h'
    exact ha1 e' h'
  · rw [hax]
    dsimp only
    intro hno
    refine ha2 fun e' hcontra => ?_
    exact hno e' (by rw [hcontra])

/-- Witness for the amended C4: a cursor with a recorded Cancelled error. Its
blocking step produces no address and surfaces exactly that error, clearing
the slot; its suspending step completes with an exhausted child still active,
so it does not surface the error and leaves the slot in place. -/
theorem C4_first_error_surfaced_once_witness :
    (sSlot.error = some .cancelled ∧ sSlot.srv.targets ≠ [] ∧ sSlot.result = false)
    ∧ ((∀ a, (g_network_service_address_enumerator_next envExhaust sSlot).2.1 = .addr a →
          (g_network_service_address_enumerator_next envExhaust sSlot).1.error =
            some .cancelled)
       ∧ ((∀ a, (g_network_service_address_enumerator_next envExhaust sSlot).2.1 ≠ .addr a) →
          (g_network_service_address_enumerator_next envExhaust sSlot).2.1 =
            .error .cancelled
          ∧ (g_network_service_address_enumerator_next envExhaust sSlot).1.error = none)
       ∧ (∀ e', (g_network_service_address_enumerator_next_async envExhaust sSlot).2.1 =
            .delivered (.error e') →
          e' = .cancelled
          ∧ (g_network_service_address_enumerator_next_async envExhaust sSlot).1.error = none
          ∧ (g_network_service_address_enumerator_next_async envExhaust sSlot).1.addr_enum
              = none
          ∧ (g_network_service_address_enumerator_next_async envExhaust sSlot).1.t = [])
       ∧ ((∀ e', (g_network_service_address_enumerator_next_async envExhaust sSlot).2.1 ≠
            .delivered (.error e')) →
          (g_network_service_address_enumerator_next_async envExhaust sSlot).1.error =
            some .cancelled)) :=
  ⟨⟨rfl, by decide, rfl⟩,
   C4_first_error_surfaced_once envExhaust sSlot .cancelled rfl (by decide) rfl⟩

/-- Witness for the amended C2: over a resolved identity, an exhausted child
is kept in place with no address produced, and an erroring child is folded
into the continuation of the walk, in both modes. -/
theorem C2_child_termination_witness :
    (sExh.srv.targets ≠ []
      ∧ sExh.addr_enum = some (ChildConn.fromUri "ldap" "a" 389, [])
      ∧ sExh.result = false
      ∧ sErrC.srv.targets ≠ []
      ∧ sErrC.addr_enum = some (ChildConn.fromUri "ldap" "a" 389, [.err .cancelled])
      ∧ sErrC.result = false)
    ∧ (((g_network_service_address_enumerator_next envExhaust sExh).1.addr_enum =
          some (ChildConn.fromUri "ldap" "a" 389, [])
        ∧ (g_network_service_address_enumerator_next envExhaust sExh).1.t = sExh.t
        ∧ (∀ a, (g_network_service_address_enumerator_next envExhaust sExh).2.1 ≠ .addr a))
       ∧ (g_network_service_address_enumerator_next envExhaust sErrC =
           finish_next { sErrC with
               t := (next_delegate_loop envExhaust sErrC.use_proxy sErrC.srv
                 (firstErr sErrC.error .cancelled) sErrC.t).t
               addr_enum := (next_delegate_loop envExhaust sErrC.use_proxy sErrC.srv
                 (firstErr sErrC.error .cancelled) sErrC.t).addr_enum
               error := (next_delegate_loop envExhaust sErrC.use_proxy sErrC.srv
                 (firstErr sErrC.error .cancelled) sErrC.t).error }
             (next_delegate_loop envExhaust sErrC.use_proxy sErrC.srv
               (firstErr sErrC.error .cancelled) sErrC.t).ret
             (next_delegate_loop envExhaust sErrC.use_proxy sErrC.srv
               (firstErr sErrC.error .cancelled) sErrC.t).events)
       ∧ ((g_network_service_address_enumerator_next_async envExhaust sExh).1.addr_enum =
            some (ChildConn.fromUri "ldap" "a" 389, [])
          ∧ (g_network_service_address_enumerator_next_async envExhaust sExh).1.t = sExh.t
          ∧ (g_network_service_address_enumerator_next_async envExhaust sExh).2.1 =
              .delivered .empty)
       ∧ ((g_network_service_address_enumerator_next_async envExhaust sErrC).2.1 =
            .delivered (next_async_expand_loop envExhaust sErrC.use_proxy
              (firstErr sErrC.error .cancelled) sErrC.t).delivered
          ∧ (g_network_service_address_enumerator_next_async envExhaust sErrC).1.addr_enum =
            (next_async_expand_loop envExhaust sErrC.use_proxy
              (firstErr sErrC.error .cancelled) sErrC.t).addr_enum)) :=
  ⟨⟨by decide, by decide, by decide, by decide, by decide, by decide⟩,
   C2_child_termination envExhaust sExh sErrC (ChildConn.fromUri "ldap" "a" 389)
     (ChildConn.fromUri "ldap" "a" 389) .cancelled []
     (by decide) (by decide) (by decide) (by decide) (by decide) (by decide)⟩

/-- C6 counterexample: with targets [tA, tB, tC] where tA's expansion is
cancelled and tB yields one address, the Cancelled error is folded into the
slot and tB is reached — but after tB's child exhausts, the enumeration is
stuck on the exhausted child forever (the third step's state is a fixpoint
with the cursor still at tC), so tC, a remaining target, is never attempted:
no child is ever created for it. The claim that every remaining target is
still attempted is false. -/
theorem C6_counterexample :
    (g_network_service_address_enumerator_next envCancel enumLdap).2.1 = .addr 5
    ∧ c6s1.error = some .cancelled
    ∧ (g_network_service_address_enumerator_next envCancel c6s1).2.1 = .error .cancelled
    ∧ (g_network_service_address_enumerator_next envCancel c6s2).2.1 = .empty
    ∧ (g_network_service_address_enumerator_next envCancel c6s2).1 = c6s2
    ∧ c6s2.t = [tC]
    ∧ (∀ px, Event.childCreated (ChildConn.fromUri "ldap" "c" 443) px ∉
         (g_network_service_address_enumerator_next envCancel enumLdap).2.2
       ∧ Event.childCreated (ChildConn.fromUri "ldap" "c" 443) px ∉
         (g_network_service_address_enumerator_next envCancel c6s1).2.2
       ∧ Event.childCreated (ChildConn.fromUri "ldap" "c" 443) px ∉
         (g_network_service_address_enumerator_next envCancel c6s2).2.2) := by decide

/-- C6 (amended): a Cancelled (or any other) error returned by a target's
child on its first pull is folded into the normal error-aggregation path in
both modes: it is recorded into the slot only if the slot is empty, the child
is discarded, the cursor advances, and the walk continues with the remaining
targets of that step — the error does not by itself terminate the sequence
(though targets that come after a later successfully-created child may never
be attempted once that child exhausts, per the amended C2). -/
theorem C6_cancelled_folded (env : Env) (p : Bool) (srv : GNetworkService)
    (err : Option GErr) (target : GSrvTarget) (rest : List GSrvTarget)
    (ascii : String) (e e' : GErr) (tail tail' : List PullItem) :
    (env.hostnameToAscii target.hostname = some ascii →
     env.parseUriFail (g_network_service_get_scheme srv) ascii target.port = none →
     env.expand p (ChildConn.fromUri (g_network_service_get_scheme srv) ascii target.port)
       = .err e :: tail →
     next_delegate_loop env p srv err (target :: rest) =
       { next_delegate_loop env p srv (firstErr err e) rest with
         events := Event.childCreated
             (ChildConn.fromUri (g_network_service_get_scheme srv) ascii target.port) p ::
           (next_delegate_loop env p srv (firstErr err e) rest).events })
    ∧ (env.expand p (ChildConn.fromHost target.hostname target.port) = .err e' :: tail' →
       next_async_expand_loop env p err (target :: rest) =
         { next_async_expand_loop env p (firstErr err e') rest with
           events := Event.childCreated (ChildConn.fromHost target.hostname target.port) p ::
             (next_async_expand_loop env p (firstErr err e') rest).events }) := by
  constructor
  · intro hn hp hx
    simp only [next_delegate_loop, hn, hp, hx]
  · intro hx
    simp only [next_async_expand_loop, hx]

/-- Witness for the amended C6 with the Cancelled error itself, in both
modes. -/
theorem C6_cancelled_folded_witness :
    (envCancel.hostnameToAscii tA.hostname = some "a"
     ∧ envCancel.parseUriFail (g_network_service_get_scheme srvLdap) "a" tA.port = none
     ∧ envCancel.expand false
         (ChildConn.fromUri (g_network_service_get_scheme srvLdap) "a" tA.port)
         = [.err .cancelled]
     ∧ envCancel.expand false (ChildConn.fromHost tA.hostname tA.port)
         = [.err .cancelled])
    ∧ (next_delegate_loop envCancel false srvLdap none (tA :: [tB, tC]) =
        { next_delegate_loop envCancel false srvLdap (firstErr none .cancelled) [tB, tC] with
          events := Event.childCreated
              (ChildConn.fromUri (g_network_service_get_scheme srvLdap) "a" tA.port) false ::
            (next_delegate_loop envCancel false srvLdap
              (firstErr none .cancelled) [tB, tC]).events })
    ∧ (next_async_expand_loop envCancel false none (tA :: [tB, tC]) =
        { next_async_expand_loop envCancel false (firstErr none .cancelled) [tB, tC] with
          events := Event.childCreated (ChildConn.fromHost tA.hostname tA.port) false ::
            (next_async_expand_loop envCancel false
              (firstErr none .cancelled) [tB, tC]).events }) :=
  ⟨⟨by decide, by decide, by decide, by decide⟩,
   (C6_cancelled_folded envCancel false srvLdap none tA [tB, tC] "a"
      .cancelled .cancelled [] []).1 (by decide) (by decide) (by decide),
   (C6_cancelled_folded envCancel false srvLdap none tA [tB, tC] "a"
      .cancelled .cancelled [] []).2 (by decide)⟩

theorem blocking_child_construction (env : Env) (p : Bool) (srv : GNetworkService) :
    ∀ (err : Option GErr) (ts : List GSrvTarget) (conn : ChildConn) (px : Bool),
      Event.childCreated conn px ∈ (next_delegate_loop env p srv err ts).events →
      px = p ∧ ∃ tg ∈ ts, ∃ ascii, env.hostnameToAscii tg.hostname = some ascii ∧
        conn = ChildConn.fromUri (g_network_service_get_scheme srv) ascii tg.port := by
  intro err ts
  induction ts generalizing err with
  | nil => intro conn px h; simp [next_delegate_loop] at h
  | cons target rest ih =>
    intro conn px h
    simp only [next_delegate_loop] at h
    split at h
    · rcases List.mem_cons.mp h with h0 | h0
      · exact absurd h0 (by simp)
      · obtain ⟨hpx, tg, htg, a0, ha0, hc⟩ := ih _ _ _ h0
        exact ⟨hpx, tg, List.mem_cons_of_mem _ htg, a0, ha0, hc⟩
    · rename_i ascii0 hnorm
      split at h
      · rcases List.mem_cons.mp h with h0 | h0
        · exact absurd h0 (by simp)
        · obtain ⟨hpx, tg, htg, a0, ha0, hc⟩ := ih _ _ _ h0
          exact ⟨hpx, tg, List.mem_cons_of_mem _ htg, a0, ha0, hc⟩
      · split at h
        · simp only [List.mem_singleton, Event.childCreated.injEq] at h
          exact ⟨h.2, target, List.mem_cons_self _ _, ascii0, hnorm, h.1⟩
        · rcases List.mem_cons.mp h with h0 | h0
          · simp only [Event.childCreated.injEq] at h0
            exact ⟨h0.2, target, List.mem_cons_self _ _, ascii0, hnorm, h0.1⟩
          · obtain ⟨hpx, tg, htg, a0, ha0, hc⟩ := ih _ _ _ h0
            exact ⟨hpx, tg, List.mem_cons_of_mem _ htg, a0, ha0, hc⟩
        · simp only [List.mem_singleton, Event.childCreated.injEq] at h
          exact ⟨h.2, target, List.mem_cons_self _ _, ascii0, hnorm, h.1⟩

theorem async_child_construction (env : Env) (p : Bool) :
    ∀ (err : Option GErr) (ts : List GSrvTarget) (conn : ChildConn) (px : Bool),
      Event.childCreated conn px ∈ (next_async_expand_loop env p err ts).events →
      px = p ∧ ∃ tg ∈ ts, conn = ChildConn.fromHost tg.hostname tg.port := by
  intro err ts
  induction ts generalizing err with
  | nil => intro conn px h; cases err <;> simp [next_async_expand_loop] at h
  | cons target rest ih =>
    intro conn px h
    simp only [next_async_expand_loop] at h
    split at h
    · simp only [List.mem_singleton, Event.childCreated.injEq] at h
      exact ⟨h.2, target, List.mem_cons_self _ _, h.1⟩
    · rcases List.mem_cons.mp h with h0 | h0
      · simp only [Event.childCreated.injEq] at h0
        exact ⟨h0.2, target, List.mem_cons_self _ _, h0.1⟩
      · obtain ⟨hpx, tg, htg, hc⟩ := ih _ _ _ h0
        exact ⟨hpx, tg, List.mem_cons_of_mem _ htg, hc⟩
    · simp only [List.mem_singleton, Event.childCreated.injEq] at h
      exact ⟨h.2, target, List.mem_cons_self _ _, h.1⟩

/-- C1 counterexample: over the same identity, with one target whose hostname
the normalizer rejects but whose raw hostname expands to an address, a fresh
blocking enumerator reports the normalization error while a fresh suspending
enumerator delivers an address — the two modes do not produce the same
sequence, because only the blocking mode normalizes the hostname. -/
theorem C1_counterexample :
    (g_network_service_address_enumerator_next envModes enumLdap).2.1 =
      .error (.invalidHostname "bad")
    ∧ (g_network_service_address_enumerator_next_async envModes enumLdap).2.1 =
      .delivered (.addr 9) := by decide

theorem next_delegate_loop_cursor_suffix (env : Env) (p : Bool) (srv : GNetworkService) :
    ∀ (err : Option GErr) (ts : List GSrvTarget),
      (next_delegate_loop env p srv err ts).t.IsSuffix ts := by
  intro err ts
  induction ts generalizing err with
  | nil => exact List.nil_suffix
  | cons target rest ih =>
    simp only [next_delegate_loop]
    split
    · exact (ih _).trans (List.suffix_cons target rest)
    · split
      · exact (ih _).trans (List.suffix_cons target rest)
      · split
        · exact List.suffix_cons target rest
        · exact (ih _).trans (List.suffix_cons target rest)
        · exact List.suffix_cons target rest

theorem next_async_expand_loop_cursor_suffix (env : Env) (p : Bool) :
    ∀ (err : Option GErr) (ts : List GSrvTarget),
      (next_async_expand_loop env p err ts).t.IsSuffix ts := by
  intro err ts
  induction ts generalizing err with
  | nil => cases err <;> exact List.nil_suffix
  | cons target rest ih =>
    simp only [next_async_expand_loop]
    split
    · exact List.suffix_cons target rest
    · exact (ih _).trans (List.suffix_cons target rest)
    · exact List.suffix_cons target rest

/-- C1 (amended): both modes consume the resolver-given target list
front-to-back — each loop leaves its cursor a suffix of the list it started
from — but they do not build the per-target child connectable from the same
data: every child the blocking loop creates is built, for some target of the
walked list, from the scheme, the ASCII-normalized hostname and the port via
URI parsing, while every child the suspending loop creates is built directly
from the raw (hostname, port) of some target, with no scheme and no
normalization; consequently the two walks can desynchronize and produce
different sequences and error outcomes. -/
theorem C1_construction_per_mode (env : Env) (p : Bool) (srv : GNetworkService)
    (err : Option GErr) (ts : List GSrvTarget) :
    (∀ conn px, Event.childCreated conn px ∈ (next_delegate_loop env p srv err ts).events →
       px = p ∧ ∃ tg ∈ ts, ∃ ascii, env.hostnameToAscii tg.hostname = some ascii ∧
         conn = ChildConn.fromUri (g_network_service_get_scheme srv) ascii tg.port)
    ∧ (∀ conn px, Event.childCreated conn px ∈ (next_async_expand_loop env p err ts).events →
       px = p ∧ ∃ tg ∈ ts, conn = ChildConn.fromHost tg.hostname tg.port)
    ∧ (next_delegate_loop env p srv err ts).t.IsSuffix ts
    ∧ (next_async_expand_loop env p err ts).t.IsSuffix ts :=
  ⟨fun conn px h => blocking_child_construction env p srv err ts conn px h,
   fun conn px h => async_child_construction env p err ts conn px h,
   next_delegate_loop_cursor_suffix env p srv err ts,
   next_async_expand_loop_cursor_suffix env p err ts⟩

/-- Witness for the amended C1: concrete children created by each mode are
characterized by the corresponding construction, and both cursors end as
suffixes of the concrete target list. -/
theorem C1_construction_per_mode_witness :
    (Event.childCreated (ChildConn.fromUri "ldap" "a" 389) false ∈
       (next_delegate_loop envExhaust false srvLdap none [tA, tB]).events
     ∧ Event.childCreated (ChildConn.fromHost "a" 389) false ∈
       (next_async_expand_loop envExhaust false none [tA, tB]).events)
    ∧ (false = false ∧ ∃ tg ∈ [tA, tB], ∃ ascii,
         envExhaust.hostnameToAscii tg.hostname = some ascii ∧
         ChildConn.fromUri "ldap" "a" 389 =
           ChildConn.fromUri (g_network_service_get_scheme srvLdap) ascii tg.port)
    ∧ (false = false ∧ ∃ tg ∈ [tA, tB],
         ChildConn.fromHost "a" 389 = ChildConn.fromHost tg.hostname tg.port)
    ∧ (next_delegate_loop envExhaust false srvLdap none [tA, tB]).t.IsSuffix [tA, tB]
    ∧ (next_async_expand_loop envExhaust false none [tA, tB]).t.IsSuffix [tA, tB] :=
  ⟨⟨by decide, by decide⟩,
   (C1_construction_per_mode envExhaust false srvLdap none [tA, tB]).1
     (ChildConn.fromUri "ldap" "a" 389) false (by decide),
   (C1_construction_per_mode envExhaust false srvLdap none [tA, tB]).2.1
     (ChildConn.fromHost "a" 389) false (by decide),
   (C1_construction_per_mode envExhaust false srvLdap none [tA, tB]).2.2.1,
   (C1_construction_per_mode envExhaust false srvLdap none [tA, tB]).2.2.2⟩
